import Mathlib

/-!
Shallow embedding of `src/main.go` of greener-reporter-junitxml.

The program parses a JUnit XML report, opens a "session" on a remote
service and submits one normalized record per test case.  Pure logic
(label parsing, normalization, URL building, request building) is
translated directly; the effectful parts (file/stdin reads, the two HTTP
calls, JSON/XML codecs provided by the Go standard library) are modelled
by an explicit environment `RunEnv` supplying their results, and every
observable action is recorded in a trace of `Event`s so that ordering
and "no network call" properties can be stated.
-/

namespace GreenerReporter

/-! ## Report model (structs `TestSuites`, `TestSuite`, `TestCase`, `Failure`, `Error`, `Skipped`) -/

/-- Go struct `Failure`: message and type attributes plus character data. -/
structure Failure where
  message : String
  type : String
  content : String
  deriving Repr, DecidableEq

/-- Go struct `Error`: message and type attributes plus character data. -/
structure Error where
  message : String
  type : String
  content : String
  deriving Repr, DecidableEq

/-- Go struct `Skipped`: only a message attribute. -/
structure Skipped where
  message : String
  deriving Repr, DecidableEq

/-- Go struct `TestCase`: the three outcome sub-elements are nullable pointers in Go,
modelled as `Option`. -/
structure TestCase where
  name : String
  classname : String
  time : String
  failure : Option Failure
  error : Option Error
  skipped : Option Skipped
  deriving Repr, DecidableEq

/-- Go struct `TestSuite`: the four count attributes are Go `int` fields (modelled as `Int`),
`time`/`timestamp` are plain strings. -/
structure TestSuite where
  name : String
  tests : Int
  failures : Int
  errors : Int
  skipped : Int
  time : String
  timestamp : String
  testCases : List TestCase
  deriving Repr, DecidableEq

/-- Go struct `TestSuites` (the `XMLName` marker field carries no data and is dropped). -/
structure TestSuites where
  testSuites : List TestSuite
  deriving Repr, DecidableEq

/-! ## Wire-protocol request/response shapes -/

/-- Baggage, the `map[string]any` JSON object, modelled as an association list whose
contents the pipeline never inspects. -/
abbrev Baggage := List (String × String)

/-- Go struct `Label`; a key-only label in Go carries the zero value `""` in `Value`. -/
structure Label where
  key : String
  value : String
  deriving Repr, DecidableEq

/-- Go struct `SessionRequest`. -/
structure SessionRequest where
  id : String
  description : String
  labels : List Label
  baggage : Baggage
  deriving Repr, DecidableEq

/-- Go struct `SessionResponse`. -/
structure SessionResponse where
  id : String
  deriving Repr, DecidableEq

/-- Go struct `TestcaseRequest`; `testcaseFile` and `baggage` are never set by
`submitResults` and stay at their zero values. -/
structure TestcaseRequest where
  sessionId : String
  testcaseName : String
  testcaseClassname : String
  testcaseFile : String
  testsuite : String
  status : String
  output : String
  baggage : Baggage
  deriving Repr, DecidableEq

/-- Go struct `TestcasesRequest`. -/
structure TestcasesRequest where
  testcases : List TestcaseRequest
  deriving Repr, DecidableEq

/-! ## Go string helpers used by the program -/

/-- Go `unicode.IsSpace` restricted to the Latin-1 range (space, tab, newline,
vertical tab, form feed, carriage return, NEL, NBSP); the wider Unicode
space classes are outside the inputs modelled here. -/
def isGoSpace (c : Char) : Bool :=
  c = ' ' || c = '\t' || c = '\n' || c = '\u000B' || c = '\u000C' || c = '\r' ||
    c = '\u0085' || c = ' '

/-- Go `strings.TrimSpace`: drop leading and trailing whitespace. -/
def goTrimSpace (s : String) : String :=
  String.mk (((s.toList.dropWhile isGoSpace).reverse.dropWhile isGoSpace).reverse)

/-- Go `strings.Cut(s, sep)` for a one-character separator, on the character list:
`some (before, after)` splits at the first occurrence, `none` when absent. -/
def cutList (sep : Char) : List Char → Option (List Char × List Char)
  | [] => none
  | c :: cs =>
    if c = sep then some ([], cs)
    else
      match cutList sep cs with
      | some (a, b) => some (c :: a, b)
      | none => none

/-- Go `strings.Split(s, ",")` on the character list: split at every comma.
Structural recursion so that it evaluates inside the kernel. -/
def splitCommaAux : List Char → List Char → List String
  | [], acc => [String.mk acc.reverse]
  | c :: cs, acc =>
    if c = ',' then String.mk acc.reverse :: splitCommaAux cs []
    else splitCommaAux cs (c :: acc)

/-- Go `strings.Split(s, ",")`: the comma-separated tokens of `s` (never empty;
the empty string yields `[""]`). -/
def splitComma (s : String) : List String :=
  splitCommaAux s.toList []

/-- Go `strings.TrimSuffix(s, "/")`: remove at most one trailing slash. -/
def trimTrailingSlash (s : String) : String :=
  match s.toList.getLast? with
  | some '/' => String.mk s.toList.dropLast
  | _ => s

/-! ## parseLabels -/

/-- Function `parseLabels`: split on commas, trim each token, skip blank tokens, cut
key/value at the first `=`; translated from the loop in src/main.go. -/
def parseLabels (labelsStr : String) : List Label :=
  if labelsStr = "" then []
  else
    (splitComma labelsStr).foldl
      (fun labels labelStr =>
        let t := goTrimSpace labelStr
        if t = "" then labels
        else
          match cutList '=' t.toList with
          | some (before, after) =>
            labels ++ [{ key := String.mk before, value := String.mk after }]
          | none => labels ++ [{ key := t, value := "" }])
      []

/-- Spec-side reading of one trimmed non-blank token: a token without `=` is a
key-only label, a token with `=` splits at the first `=`. -/
def tokenToLabel (t : String) : Label :=
  match cutList '=' t.toList with
  | some (before, after) => { key := String.mk before, value := String.mk after }
  | none => { key := t, value := "" }

/-- Spec-side reading of the whole label grammar: split on commas, trim,
drop blanks, map each remaining token to a label. -/
def parseLabelsSpec (s : String) : List Label :=
  (((splitComma s).map goTrimSpace).filter (fun t => t ≠ "")).map tokenToLabel

/-! ## XML attribute decoding for the `TestSuite` struct

`encoding/xml` converts an attribute into an `int` struct field via
`copyValue`: an empty attribute value sets the zero value, otherwise the
space-trimmed text must parse with `strconv.ParseInt(_, 10, 64)` or the
whole `Unmarshal` fails.  String fields take the text verbatim, and an
absent attribute leaves the field's zero value.  Unknown attributes are
ignored.  The model below captures exactly that layer for the suite
attributes declared in src/main.go. -/

/-- Decimal digits to a natural number. -/
def natOfDigits (cs : List Char) : Nat :=
  cs.foldl (fun n c => n * 10 + (c.toNat - 48)) 0

/-- Go `strconv.ParseInt(s, 10, 64)`: optional sign, at least one decimal digit,
value within the signed 64-bit range. -/
def parseGoInt64 (s : String) : Option Int :=
  let cs := s.toList
  let signDigits : Bool × List Char :=
    match cs with
    | '+' :: rest => (false, rest)
    | '-' :: rest => (true, rest)
    | rest => (false, rest)
  let neg := signDigits.1
  let ds := signDigits.2
  if ds.isEmpty || !ds.all Char.isDigit then none
  else
    let n := natOfDigits ds
    if neg then
      if n ≤ 2 ^ 63 then some (-(n : Int)) else none
    else
      if n < 2 ^ 63 then some ((n : Int)) else none

/-- The `copyValue` conversion for an `int` struct field: empty text is the zero value,
otherwise trim space and `ParseInt`. -/
def decodeIntAttr (s : String) : Option Int :=
  if s = "" then some 0 else parseGoInt64 (goTrimSpace s)

/-- One optional count attribute: absent leaves the zero value, present goes
through `decodeIntAttr`. -/
def decodeCount : Option String → Option Int
  | none => some 0
  | some s => decodeIntAttr s

/-- The raw attribute texts of one `<testsuite>` element (absent = `none`). -/
structure SuiteAttrsRaw where
  name : Option String
  tests : Option String
  failures : Option String
  errors : Option String
  skipped : Option String
  time : Option String
  timestamp : Option String
  deriving Repr, DecidableEq

/-- Decoding of one `<testsuite>` element's attributes into the `TestSuite`
struct, per `encoding/xml` for the field types declared in src/main.go:
the four `int` count fields go through `decodeIntAttr`, the string fields
take the text verbatim, `none` means the attribute is absent. -/
def decodeSuite (raw : SuiteAttrsRaw) (cases : List TestCase) : Option TestSuite := do
  let tests ← decodeCount raw.tests
  let failures ← decodeCount raw.failures
  let errors ← decodeCount raw.errors
  let skipped ← decodeCount raw.skipped
  pure
    { name := raw.name.getD ""
      tests := tests
      failures := failures
      errors := errors
      skipped := skipped
      time := raw.time.getD ""
      timestamp := raw.timestamp.getD ""
      testCases := cases }

/-- Decoding a whole `<testsuites>` document's suite elements: the parse
succeeds only when every suite's attributes decode. -/
def decodeTestSuites (suites : List (SuiteAttrsRaw × List TestCase)) : Option TestSuites :=
  (suites.mapM (fun p => decodeSuite p.1 p.2)).map TestSuites.mk

/-! ## Reporter -/

/-- Go struct `Reporter`; the `client *http.Client` handle is replaced by the
explicit `RunEnv` below. -/
structure Reporter where
  endpoint : String
  apiKey : String
  sessionId : String
  sessionDescription : String
  sessionLabels : List Label
  sessionBaggage : Baggage
  deriving Repr, DecidableEq

/-- Function `NewReporter`: stores the endpoint with `strings.TrimSuffix(endpoint, "/")`. -/
def NewReporter (endpoint apiKey sessionID sessionDescription : String)
    (sessionLabels : List Label) (sessionBaggage : Baggage) : Reporter :=
  { endpoint := trimTrailingSlash endpoint
    apiKey := apiKey
    sessionId := sessionID
    sessionDescription := sessionDescription
    sessionLabels := sessionLabels
    sessionBaggage := sessionBaggage }

/-- URL of the session-creation request (`r.endpoint+"/api/v1/ingress/sessions"`). -/
def sessionURL (r : Reporter) : String :=
  r.endpoint ++ "/api/v1/ingress/sessions"

/-- URL of the batch-submission request (`r.endpoint+"/api/v1/ingress/testcases"`). -/
def testcasesURL (r : Reporter) : String :=
  r.endpoint ++ "/api/v1/ingress/testcases"

/-! ## Effect model: transport results, events, environment -/

/-- An HTTP response: status code and raw body. -/
structure HttpResponse where
  statusCode : Nat
  body : String
  deriving Repr, DecidableEq

/-- Result of one HTTP round trip: a response, or a transport-level failure
(`client.Do` returning an error). -/
inductive TransportResult where
  | ok (resp : HttpResponse)
  | transportFailure (msg : String)
  deriving Repr, DecidableEq

/-- Observable actions of one pipeline run, in order of occurrence. -/
inductive Event where
  | sessionCall (url : String) (req : SessionRequest)
  | readStdin
  | readFile (path : String)
  | parseXml
  | testcasesCall (url : String) (req : TestcasesRequest)
  deriving Repr, DecidableEq

/-- Environment supplying the results of every effectful or library-provided
step: input reads, the XML parse, the JSON decode of the session response,
and the two HTTP round trips. -/
structure RunEnv where
  stdinData : Except String String
  fileData : String → Except String String
  parseXML : String → Except String TestSuites
  parseBaggage : String → Except String Baggage
  decodeSession : String → Except String SessionResponse
  sessionResponse : TransportResult
  testcasesResponse : TransportResult

/-- Already-validated flag values handed to `run` by the CLI layer. -/
structure RunConfig where
  endpoint : String
  apiKey : String
  xmlFile : String
  sessionID : String
  sessionDescription : String
  sessionLabelsStr : String
  sessionBaggageStr : String
  deriving Repr, DecidableEq

/-! ## createSession -/

/-- The session descriptor actually serialized by `createSession`: the
reporter's fields, with the default description substituted when the
caller-supplied one is empty. -/
def buildSessionRequest (r : Reporter) : SessionRequest :=
  let req : SessionRequest :=
    { id := r.sessionId
      description := r.sessionDescription
      labels := r.sessionLabels
      baggage := r.sessionBaggage }
  if req.description = "" then { req with description := "JUnit XML test report" } else req

/-- Function `createSession`: issue one POST to the sessions URL; a transport failure,
a status other than 201 Created, or an undecodable success body each yield
an error; on success the decoded id overwrites `r.sessionId`.
(`json.Marshal` and `http.NewRequest` cannot fail for these values and are
modelled as total.) -/
def createSession (env : RunEnv) (r : Reporter) : Except String Reporter × List Event :=
  let req := buildSessionRequest r
  let ev := Event.sessionCall (sessionURL r) req
  match env.sessionResponse with
  | TransportResult.transportFailure m =>
    (Except.error ("send session request: " ++ m), [ev])
  | TransportResult.ok resp =>
    if resp.statusCode ≠ 201 then
      (Except.error
        ("create session failed: status=" ++ toString resp.statusCode ++ " body=" ++ resp.body),
        [ev])
    else
      match env.decodeSession resp.body with
      | Except.error m => (Except.error ("decode session response: " ++ m), [ev])
      | Except.ok sessionResp => (Except.ok { r with sessionId := sessionResp.id }, [ev])

/-! ## submitResults -/

/-- The per-case normalization inside `submitResults`: status and output are
derived from the outcome sub-elements in the order failure, error,
skipped, with pass as the default. -/
def normalizeCase (sessionId suiteName : String) (tc : TestCase) : TestcaseRequest :=
  let statusOutput : String × String :=
    match tc.failure with
    | some f => ("fail", "Failure: " ++ f.message ++ "\n" ++ f.content)
    | none =>
      match tc.error with
      | some e => ("error", "Error: " ++ e.message ++ "\n" ++ e.content)
      | none =>
        match tc.skipped with
        | some s => ("skip", s.message)
        | none => ("pass", "")
  { sessionId := sessionId
    testcaseName := tc.name
    testcaseClassname := tc.classname
    testcaseFile := ""
    testsuite := suiteName
    status := statusOutput.1
    output := statusOutput.2
    baggage := [] }

/-- The record batch built by the nested loop in `submitResults`: append one
record per case, suites in order, cases in order within each suite. -/
def buildTestcases (sessionId : String) (testsuites : TestSuites) : List TestcaseRequest :=
  testsuites.testSuites.foldl
    (fun acc suite =>
      suite.testCases.foldl
        (fun acc2 tc => acc2 ++ [normalizeCase sessionId suite.name tc]) acc)
    []

/-- Total number of cases across all suites of a report. -/
def totalCases (testsuites : TestSuites) : Nat :=
  (testsuites.testSuites.map (fun s => s.testCases.length)).sum

/-- Function `submitResults`: build the batch; an empty batch returns success with no
network call; otherwise issue one POST to the testcases URL and fail on a
transport failure or any status other than 201 Created. -/
def submitResults (env : RunEnv) (r : Reporter) (testsuites : TestSuites) :
    Except String Unit × List Event :=
  let testcases := buildTestcases r.sessionId testsuites
  if testcases.length = 0 then (Except.ok (), [])
  else
    let req : TestcasesRequest := { testcases := testcases }
    let ev := Event.testcasesCall (testcasesURL r) req
    match env.testcasesResponse with
    | TransportResult.transportFailure m =>
      (Except.error ("send testcases request: " ++ m), [ev])
    | TransportResult.ok resp =>
      if resp.statusCode ≠ 201 then
        (Except.error
          ("submit testcases failed: status=" ++ toString resp.statusCode ++
            " body=" ++ resp.body),
          [ev])
      else (Except.ok (), [ev])

/-! ## run -/

/-- Input acquisition of `run`: stdin when the file flag is the `-` sentinel,
otherwise the named file, each failure wrapped with its stage label. -/
def readInputResult (env : RunEnv) (cfg : RunConfig) : Except String String :=
  if cfg.xmlFile = "-" then
    match env.stdinData with
    | Except.error e => Except.error ("read from stdin: " ++ e)
    | Except.ok d => Except.ok d
  else
    match env.fileData cfg.xmlFile with
    | Except.error e => Except.error ("read file " ++ cfg.xmlFile ++ ": " ++ e)
    | Except.ok d => Except.ok d

/-- The trace event of the input read of `run`. -/
def readEvent (cfg : RunConfig) : Event :=
  if cfg.xmlFile = "-" then Event.readStdin else Event.readFile cfg.xmlFile

/-- Function `run`, translated statement by statement from src/main.go: parse labels,
parse baggage, build the reporter, create the session, then read the
input, parse the XML and submit the results, wrapping each stage's
failure with its label and stopping at the first error. -/
def run (env : RunEnv) (cfg : RunConfig) : Except String Unit × List Event :=
  let sessionLabels := parseLabels cfg.sessionLabelsStr
  let baggageResult : Except String Baggage :=
    if cfg.sessionBaggageStr = "" then Except.ok []
    else env.parseBaggage cfg.sessionBaggageStr
  match baggageResult with
  | Except.error e => (Except.error ("parse session baggage: " ++ e), [])
  | Except.ok sessionBaggage =>
    let reporter := NewReporter cfg.endpoint cfg.apiKey cfg.sessionID cfg.sessionDescription
      sessionLabels sessionBaggage
    match createSession env reporter with
    | (Except.error e, tr) => (Except.error ("create session: " ++ e), tr)
    | (Except.ok reporter2, tr) =>
      match readInputResult env cfg with
      | Except.error msg => (Except.error msg, tr ++ [readEvent cfg])
      | Except.ok xmlData =>
        match env.parseXML xmlData with
        | Except.error e =>
          (Except.error ("parse XML: " ++ e), tr ++ [readEvent cfg, Event.parseXml])
        | Except.ok testsuites =>
          match submitResults env reporter2 testsuites with
          | (Except.error e, tr2) =>
            (Except.error ("submit results: " ++ e), tr ++ [readEvent cfg, Event.parseXml] ++ tr2)
          | (Except.ok _, tr2) =>
            (Except.ok (), tr ++ [readEvent cfg, Event.parseXml] ++ tr2)

/-! ## Concrete fixtures used by witnesses and counterexamples -/

/-- A run configuration reading from the file `r.xml`, with no labels and no baggage. -/
def cfgC3 : RunConfig :=
  { endpoint := "http://h"
    apiKey := "k"
    xmlFile := "r.xml"
    sessionID := "cli-id"
    sessionDescription := ""
    sessionLabelsStr := ""
    sessionBaggageStr := "" }

/-- An environment whose session call succeeds (201, id `srv-1`) but whose
input reads fail. -/
def envC3 : RunEnv :=
  { stdinData := Except.error "closed"
    fileData := fun _ => Except.error "no such file"
    parseXML := fun _ => Except.error "unexpected EOF"
    parseBaggage := fun _ => Except.error "bad json"
    decodeSession := fun _ => Except.ok { id := "srv-1" }
    sessionResponse := TransportResult.ok { statusCode := 201, body := "ok" }
    testcasesResponse := TransportResult.ok { statusCode := 201, body := "" } }

/-- The same environment with the session call answered by HTTP 500. -/
def env500 : RunEnv :=
  { envC3 with sessionResponse := TransportResult.ok { statusCode := 500, body := "boom" } }

/-- A concrete reporter, as built by `run` from `cfgC3`. -/
def reporter0 : Reporter :=
  NewReporter "http://h" "k" "cli-id" "" [] []

/-- A report with one suite and zero cases. -/
def tsEmpty : TestSuites :=
  { testSuites := [{ name := "empty", tests := 0, failures := 0, errors := 0, skipped := 0,
                     time := "", timestamp := "", testCases := [] }] }

/-! ## Helper lemmas -/

theorem foldl_append_singleton {α β : Type} (f : α → β) (l : List α) (acc : List β) :
    l.foldl (fun a x => a ++ [f x]) acc = acc ++ l.map f := by
  induction l generalizing acc with
  | nil => simp
  | cons x xs ih => simp [List.foldl_cons, ih]

theorem foldl_append_map {α β : Type} (g : α → List β) (l : List α) (acc : List β) :
    l.foldl (fun a x => a ++ g x) acc = acc ++ l.flatMap g := by
  induction l generalizing acc with
  | nil => simp
  | cons x xs ih => simp [List.foldl_cons, ih]

/-- The batch built by `submitResults` is the in-order concatenation, suite by
suite, of the per-case records. -/
theorem buildTestcases_eq (sid : String) (ts : TestSuites) :
    buildTestcases sid ts
      = ts.testSuites.flatMap (fun s => s.testCases.map (normalizeCase sid s.name)) := by
  unfold buildTestcases
  have h1 : ∀ acc : List TestcaseRequest,
      ts.testSuites.foldl
          (fun acc2 suite =>
            suite.testCases.foldl
              (fun acc3 tc => acc3 ++ [normalizeCase sid suite.name tc]) acc2) acc
        = ts.testSuites.foldl
            (fun acc2 suite => acc2 ++ suite.testCases.map (normalizeCase sid suite.name)) acc := by
    intro acc
    congr 1
    funext a x
    exact foldl_append_singleton _ _ _
  rw [h1, foldl_append_map]
  simp

/-- The batch has exactly one record per case. -/
theorem length_buildTestcases (sid : String) (ts : TestSuites) :
    (buildTestcases sid ts).length = totalCases ts := by
  rw [buildTestcases_eq, totalCases]
  induction ts.testSuites with
  | nil => rfl
  | cons s ss ih => simp [ih]

/-- Every record of the batch carries the session id it was built with. -/
theorem sessionId_of_mem_buildTestcases (sid : String) (ts : TestSuites)
    (rec : TestcaseRequest) (h : rec ∈ buildTestcases sid ts) :
    rec.sessionId = sid := by
  rw [buildTestcases_eq] at h
  simp only [List.mem_flatMap, List.mem_map] at h
  obtain ⟨s, _, tc, _, hrec⟩ := h
  rw [← hrec]
  rfl

/-- Lemma: `createSession` always issues exactly one session request, carrying the
built session descriptor. -/
theorem createSession_trace (env : RunEnv) (r : Reporter) :
    (createSession env r).2
      = [Event.sessionCall (sessionURL r) (buildSessionRequest r)] := by
  unfold createSession
  cases env.sessionResponse with
  | transportFailure m => rfl
  | ok resp =>
    by_cases h : resp.statusCode = 201
    · simp only [h, ne_eq, not_true_eq_false, if_false]
      cases env.decodeSession resp.body <;> rfl
    · simp only [ne_eq, h, not_false_eq_true, if_true]

/-- The label-accumulating loop of `parseLabels` appends, in token order, one
label per trimmed non-blank token. -/
theorem foldl_labels_eq (toks : List String) (acc : List Label) :
    toks.foldl
        (fun labels labelStr =>
          let t := goTrimSpace labelStr
          if t = "" then labels
          else
            match cutList '=' t.toList with
            | some (before, after) =>
              labels ++ [{ key := String.mk before, value := String.mk after }]
            | none => labels ++ [{ key := t, value := "" }])
        acc
      = acc ++ (((toks.map goTrimSpace).filter (fun t => t ≠ "")).map tokenToLabel) := by
  induction toks generalizing acc with
  | nil => simp
  | cons x xs ih =>
    rw [List.foldl_cons, List.map_cons, List.filter_cons]
    by_cases hx : goTrimSpace x = ""
    · simp only [hx, if_true, ite_true, decide_not]
      simpa [hx] using ih acc
    · have hne : (decide ¬goTrimSpace x = "") = true := by simp [hx]
      simp only [hx, if_false, ite_false, decide_not, hne]
      rw [ih]
      unfold tokenToLabel
      cases hcut : cutList '=' (goTrimSpace x).data with
      | none => simp [String.toList, hcut, hx]
      | some p =>
        cases p with
        | mk b a => simp [String.toList, hcut, hx]

/-- Lemma: `parseLabels` computes exactly the spec-side label grammar: split on
commas, trim, drop blanks, cut each token at its first `=`. -/
theorem parseLabels_eq_spec (s : String) : parseLabels s = parseLabelsSpec s := by
  by_cases hs : s = ""
  · subst hs; rfl
  · unfold parseLabels parseLabelsSpec
    simp only [hs, if_false]
    simpa using foldl_labels_eq (splitComma s) []

/-- Decoding a suite's attributes succeeds exactly when its four count
attributes decode; the `name`, `time` and `timestamp` texts play no part. -/
theorem decodeSuite_isSome (raw : SuiteAttrsRaw) (cases0 : List TestCase) :
    (decodeSuite raw cases0).isSome =
      ((decodeCount raw.tests).isSome && (decodeCount raw.failures).isSome &&
        (decodeCount raw.errors).isSome && (decodeCount raw.skipped).isSome) := by
  unfold decodeSuite
  cases decodeCount raw.tests <;> cases decodeCount raw.failures <;>
    cases decodeCount raw.errors <;> cases decodeCount raw.skipped <;> rfl

theorem trimTrailingSlash_append_slash (e : String) : trimTrailingSlash (e ++ "/") = e := by
  unfold trimTrailingSlash
  have h1 : (e ++ "/").toList = e.toList ++ ['/'] := rfl
  rw [h1, List.getLast?_concat]
  rw [List.dropLast_concat]
  rfl

theorem trimTrailingSlash_eq_self (e : String) (h : e.toList.getLast? ≠ some '/') :
    trimTrailingSlash e = e := by
  unfold trimTrailingSlash
  split
  · next heq => exact absurd heq h
  · rfl

/-- The trace component of any `createSession` outcome is the single session
call. -/
theorem createSession_snd_eq {env : RunEnv} {r : Reporter} {res : Except String Reporter}
    {tr : List Event} (h : createSession env r = (res, tr)) :
    tr = [Event.sessionCall (sessionURL r) (buildSessionRequest r)] := by
  have h2 := createSession_trace env r
  rw [h] at h2
  exact h2

theorem readEvent_ne_testcasesCall (cfg : RunConfig) (u : String) (q : TestcasesRequest) :
    readEvent cfg ≠ Event.testcasesCall u q := by
  unfold readEvent
  split <;> simp

/-! ## Claim theorems -/

/-- Claim C1: for every parsed report, the normalizer inside `submitResults`
emits exactly one record per case — the batch is the in-order concatenation,
suite by suite and case by case within each suite, of the per-case records,
and its length equals the total case count across all suites. -/
theorem claim_C1_record_count_and_order (sid : String) (ts : TestSuites) :
    buildTestcases sid ts
        = ts.testSuites.flatMap (fun s => s.testCases.map (normalizeCase sid s.name)) ∧
      (buildTestcases sid ts).length = totalCases ts :=
  ⟨buildTestcases_eq sid ts, length_buildTestcases sid ts⟩

/-- Claim C2: per-case status/output precedence — a present failure gives
status `fail` with output `Failure: {message}\n{body}`; else a present error
gives `error` with `Error: {message}\n{body}`; else a present skipped gives
`skip` with the bare skip message; else `pass` with empty output. -/
theorem claim_C2_status_precedence (sid sn : String) (tc : TestCase) :
    (∀ f, tc.failure = some f →
      (normalizeCase sid sn tc).status = "fail" ∧
      (normalizeCase sid sn tc).output = "Failure: " ++ f.message ++ "\n" ++ f.content) ∧
    (∀ e, tc.failure = none → tc.error = some e →
      (normalizeCase sid sn tc).status = "error" ∧
      (normalizeCase sid sn tc).output = "Error: " ++ e.message ++ "\n" ++ e.content) ∧
    (∀ s, tc.failure = none → tc.error = none → tc.skipped = some s →
      (normalizeCase sid sn tc).status = "skip" ∧
      (normalizeCase sid sn tc).output = s.message) ∧
    (tc.failure = none → tc.error = none → tc.skipped = none →
      (normalizeCase sid sn tc).status = "pass" ∧
      (normalizeCase sid sn tc).output = "") := by
  refine ⟨fun f hf => ?_, fun e h1 h2 => ?_, fun s h1 h2 h3 => ?_, fun h1 h2 h3 => ?_⟩ <;>
    simp [normalizeCase, *]

/-- Witness for claim C2 on a concrete failing case. -/
theorem claim_C2_witness :
    (normalizeCase "sid" "pkg"
        { name := "TestB", classname := "", time := "",
          failure := some { message := "assert failed", type := "", content := "got 1 want 2" },
          error := none, skipped := none }).status = "fail" ∧
    (normalizeCase "sid" "pkg"
        { name := "TestB", classname := "", time := "",
          failure := some { message := "assert failed", type := "", content := "got 1 want 2" },
          error := none, skipped := none }).output
      = "Failure: " ++ "assert failed" ++ "\n" ++ "got 1 want 2" :=
  (claim_C2_status_precedence "sid" "pkg" _).1 _ rfl

/-- Claim C4 (counterexample): a suite whose `tests` attribute holds the
non-numeric text `abc` makes the whole decode fail — a malformed count
attribute alone does cause a parse failure, contrary to the claim. -/
theorem claim_C4_counterexample :
    decodeSuite
        { name := some "suite-1", tests := some "abc", failures := none, errors := none,
          skipped := none, time := none, timestamp := none } [] = none ∧
    decodeTestSuites
        [({ name := some "suite-1", tests := some "abc", failures := none, errors := none,
            skipped := none, time := none, timestamp := none }, [])] = none :=
  ⟨rfl, rfl⟩

/-- Claim C4 (amended): suite-attribute decoding succeeds exactly when the
four count attributes decode — malformed `time`/`timestamp` text never causes
a failure, absent or empty count attributes decode to zero, but non-empty
non-integer count text fails the parse. -/
theorem claim_C4_amended (raw : SuiteAttrsRaw) (cases0 : List TestCase) :
    ((decodeSuite raw cases0).isSome =
        ((decodeCount raw.tests).isSome && (decodeCount raw.failures).isSome &&
          (decodeCount raw.errors).isSome && (decodeCount raw.skipped).isSome)) ∧
    (∀ t u : Option String,
      (decodeSuite { raw with time := t, timestamp := u } cases0).isSome
        = (decodeSuite raw cases0).isSome) ∧
    decodeCount none = some 0 ∧
    decodeCount (some "") = some 0 := by
  refine ⟨decodeSuite_isSome raw cases0, fun t u => ?_, rfl, rfl⟩
  rw [decodeSuite_isSome, decodeSuite_isSome]

/-- Claim C5: a report with zero cases across all suites yields zero records,
and `submitResults` performs no network call and returns success. -/
theorem claim_C5_empty_report (env : RunEnv) (r : Reporter) (ts : TestSuites)
    (h : totalCases ts = 0) :
    buildTestcases r.sessionId ts = [] ∧ submitResults env r ts = (Except.ok (), []) := by
  have hb : buildTestcases r.sessionId ts = [] := by
    have hl := length_buildTestcases r.sessionId ts
    rw [h] at hl
    exact List.length_eq_zero.mp hl
  refine ⟨hb, ?_⟩
  unfold submitResults
  simp [hb]

/-- Witness for claim C5 on a report with one suite and no cases. -/
theorem claim_C5_witness :
    buildTestcases reporter0.sessionId tsEmpty = [] ∧
    submitResults envC3 reporter0 tsEmpty = (Except.ok (), []) :=
  claim_C5_empty_report envC3 reporter0 tsEmpty rfl

/-- Claim C7: a successful `createSession` stores exactly the session id
decoded from the 201 response — independently of any client-supplied id —
and every record later built with the reporter's session id carries it. -/
theorem claim_C7_resolved_session_id (env : RunEnv) (r r' : Reporter) (tr : List Event)
    (h : createSession env r = (Except.ok r', tr)) :
    (∃ resp sresp,
        env.sessionResponse = TransportResult.ok resp ∧ resp.statusCode = 201 ∧
        env.decodeSession resp.body = Except.ok sresp ∧ r'.sessionId = sresp.id) ∧
    (∀ ts rec, rec ∈ buildTestcases r'.sessionId ts → rec.sessionId = r'.sessionId) := by
  refine ⟨?_, fun ts rec hm => sessionId_of_mem_buildTestcases _ _ _ hm⟩
  cases hres : env.sessionResponse with
  | transportFailure m =>
    simp [createSession, hres, Prod.ext_iff] at h
  | ok resp =>
    by_cases h201 : resp.statusCode = 201
    · cases hdec : env.decodeSession resp.body with
      | error m =>
        simp [createSession, hres, h201, hdec, Prod.ext_iff] at h
      | ok sresp =>
        simp [createSession, hres, h201, hdec, Prod.ext_iff] at h
        exact ⟨resp, sresp, rfl, h201, hdec, by rw [← h.1]⟩
    · simp [createSession, hres, h201, Prod.ext_iff] at h

/-- Witness for claim C7: the id decoded from the concrete 201 response
replaces the client-supplied `cli-id`. -/
theorem claim_C7_witness :
    (∃ resp sresp,
        envC3.sessionResponse = TransportResult.ok resp ∧ resp.statusCode = 201 ∧
        envC3.decodeSession resp.body = Except.ok sresp ∧
        ({ reporter0 with sessionId := "srv-1" } : Reporter).sessionId = sresp.id) ∧
    (∀ ts rec,
        rec ∈ buildTestcases ({ reporter0 with sessionId := "srv-1" } : Reporter).sessionId ts →
        rec.sessionId = ({ reporter0 with sessionId := "srv-1" } : Reporter).sessionId) :=
  claim_C7_resolved_session_id envC3 reporter0 { reporter0 with sessionId := "srv-1" }
    [Event.sessionCall (sessionURL reporter0) (buildSessionRequest reporter0)] rfl

/-- Claim C8: `parseLabels` splits on commas, trims each token, drops blank
tokens and cuts key/value at the first `=` (a key-only label carries the empty
value, which is exactly what a trailing `=` also yields in the Go struct);
on the spec's example input it produces the three expected labels. -/
theorem claim_C8_parseLabels :
    (∀ s : String, parseLabels s = parseLabelsSpec s) ∧
    parseLabels "ci,tag=value, ,env=" =
      [{ key := "ci", value := "" }, { key := "tag", value := "value" },
       { key := "env", value := "" }] :=
  ⟨parseLabels_eq_spec, rfl⟩

/-- Claim C9: the session request sent by `createSession` carries the fixed
default description `JUnit XML test report` when the caller-supplied one is
empty, and the caller's description unchanged otherwise. -/
theorem claim_C9_default_description (env : RunEnv) (r : Reporter) :
    (createSession env r).2 = [Event.sessionCall (sessionURL r) (buildSessionRequest r)] ∧
    (r.sessionDescription = "" →
      (buildSessionRequest r).description = "JUnit XML test report") ∧
    (r.sessionDescription ≠ "" →
      (buildSessionRequest r).description = r.sessionDescription) := by
  refine ⟨createSession_trace env r, fun h => ?_, fun h => ?_⟩ <;>
    simp [buildSessionRequest, h]

/-- Witness for claim C9: the empty description is replaced by the default,
a non-empty one is kept. -/
theorem claim_C9_witness :
    ((createSession envC3 reporter0).2
        = [Event.sessionCall (sessionURL reporter0) (buildSessionRequest reporter0)]) ∧
    (buildSessionRequest reporter0).description = "JUnit XML test report" ∧
    (buildSessionRequest { reporter0 with sessionDescription := "custom" }).description
      = "custom" :=
  ⟨(claim_C9_default_description envC3 reporter0).1,
   (claim_C9_default_description envC3 reporter0).2.1 rfl,
   (claim_C9_default_description envC3
      { reporter0 with sessionDescription := "custom" }).2.2 (by decide)⟩

/-- Claim C10: `NewReporter` strips one trailing slash, so an endpoint given
with a single trailing slash and the same endpoint without it store the same
endpoint and produce identical session and testcases request URLs. -/
theorem claim_C10_trailing_slash (e k sid d : String) (ls : List Label) (bg : Baggage)
    (h : e.toList.getLast? ≠ some '/') :
    NewReporter (e ++ "/") k sid d ls bg = NewReporter e k sid d ls bg ∧
    (NewReporter (e ++ "/") k sid d ls bg).endpoint = e ∧
    sessionURL (NewReporter (e ++ "/") k sid d ls bg)
      = sessionURL (NewReporter e k sid d ls bg) ∧
    testcasesURL (NewReporter (e ++ "/") k sid d ls bg)
      = testcasesURL (NewReporter e k sid d ls bg) ∧
    sessionURL (NewReporter e k sid d ls bg) = e ++ "/api/v1/ingress/sessions" ∧
    testcasesURL (NewReporter e k sid d ls bg) = e ++ "/api/v1/ingress/testcases" := by
  have h1 : trimTrailingSlash (e ++ "/") = e := trimTrailingSlash_append_slash e
  have h2 : trimTrailingSlash e = e := trimTrailingSlash_eq_self e h
  refine ⟨?_, ?_, ?_, ?_, ?_, ?_⟩ <;> simp [NewReporter, sessionURL, testcasesURL, h1, h2]

/-- Witness for claim C10 at a concrete endpoint. -/
theorem claim_C10_witness :
    NewReporter ("http://x" ++ "/") "k" "" "" [] [] = NewReporter "http://x" "k" "" "" [] [] ∧
    (NewReporter ("http://x" ++ "/") "k" "" "" [] []).endpoint = "http://x" ∧
    sessionURL (NewReporter ("http://x" ++ "/") "k" "" "" [] [])
      = sessionURL (NewReporter "http://x" "k" "" "" [] []) ∧
    testcasesURL (NewReporter ("http://x" ++ "/") "k" "" "" [] [])
      = testcasesURL (NewReporter "http://x" "k" "" "" [] []) ∧
    sessionURL (NewReporter "http://x" "k" "" "" [] [])
      = "http://x" ++ "/api/v1/ingress/sessions" ∧
    testcasesURL (NewReporter "http://x" "k" "" "" [] [])
      = "http://x" ++ "/api/v1/ingress/testcases" :=
  claim_C10_trailing_slash "http://x" "k" "" "" [] [] (by decide)

/-- Claim C3 (counterexample): in a run whose input read fails, the
session-open network call has already been issued — the trace starts with the
session request, followed by the failed file read.  Input acquisition and
parsing therefore do not complete before the session-open request, and an
input-read failure does not abort the run before any network call is made. -/
theorem claim_C3_counterexample :
    (run envC3 cfgC3).1 = Except.error "read file r.xml: no such file" ∧
    (run envC3 cfgC3).2 =
      [Event.sessionCall "http://h/api/v1/ingress/sessions"
        { id := "cli-id", description := "JUnit XML test report", labels := [], baggage := [] },
       Event.readFile "r.xml"] :=
  ⟨rfl, rfl⟩

/-- Claim C3 (amended): the session-open request is issued before input
acquisition and parsing — whenever the trace is non-empty its first event is
the session call — and an input-read failure or a parse failure still aborts
the run with an error before the submission network call is made. -/
theorem claim_C3_amended (env : RunEnv) (cfg : RunConfig)
    (h : (∃ e, readInputResult env cfg = Except.error e) ∨
         (∃ d e, readInputResult env cfg = Except.ok d ∧ env.parseXML d = Except.error e)) :
    ((run env cfg).2 = [] ∨ ∃ u q rest, (run env cfg).2 = Event.sessionCall u q :: rest) ∧
    (∃ m, (run env cfg).1 = Except.error m) ∧
    (∀ u q, Event.testcasesCall u q ∉ (run env cfg).2) := by
  simp only [run]
  split
  · exact ⟨Or.inl rfl, ⟨_, rfl⟩, fun u q => by simp⟩
  · rename_i sessionBaggage hbag
    split
    · rename_i e tr heq
      have htr := createSession_snd_eq heq
      exact ⟨Or.inr ⟨_, _, _, by rw [htr]⟩, ⟨_, rfl⟩, fun u q => by simp [htr]⟩
    · rename_i reporter2 tr heq
      have htr := createSession_snd_eq heq
      split
      · rename_i msg heqr
        refine ⟨Or.inr ⟨_, _, _, by rw [htr]; rfl⟩, ⟨_, rfl⟩, fun u q => ?_⟩
        simp [htr]
        exact fun hh => readEvent_ne_testcasesCall cfg u q hh.symm
      · rename_i xmlData heqr
        split
        · rename_i e heqp
          refine ⟨Or.inr ⟨_, _, _, by rw [htr]; rfl⟩, ⟨_, rfl⟩, fun u q => ?_⟩
          simp [htr]
          exact fun hh => readEvent_ne_testcasesCall cfg u q hh.symm
        · rename_i tsuites heqp
          rcases h with ⟨e, he⟩ | ⟨d, e, hd, hp⟩
          · rw [heqr] at he
            exact absurd he (by simp)
          · rw [heqr] at hd
            injection hd with hd
            rw [← hd] at hp
            rw [heqp] at hp
            exact absurd hp (by simp)

/-- Witness for the amended claim C3: the concrete failing-read run errors
and its trace contains no submission call. -/
theorem claim_C3_witness :
    ((run envC3 cfgC3).2 = [] ∨
      ∃ u q rest, (run envC3 cfgC3).2 = Event.sessionCall u q :: rest) ∧
    (∃ m, (run envC3 cfgC3).1 = Except.error m) ∧
    (∀ u q, Event.testcasesCall u q ∉ (run envC3 cfgC3).2) :=
  claim_C3_amended envC3 cfgC3 (Or.inl ⟨"read file r.xml: no such file", rfl⟩)

/-- Claim C6: `createSession` fails on a transport failure, on any status other
than 201 Created (with the status and raw body in the error), and on an
undecodable success body; and a session failure aborts `run` with the
session-stage label before any submission request is attempted. -/
theorem claim_C6_session_failure_modes (env : RunEnv) (r : Reporter) (cfg : RunConfig) :
    (∀ m, env.sessionResponse = TransportResult.transportFailure m →
      (createSession env r).1 = Except.error ("send session request: " ++ m)) ∧
    (∀ resp, env.sessionResponse = TransportResult.ok resp → resp.statusCode ≠ 201 →
      (createSession env r).1 = Except.error
        ("create session failed: status=" ++ toString resp.statusCode ++
          " body=" ++ resp.body)) ∧
    (∀ resp m, env.sessionResponse = TransportResult.ok resp → resp.statusCode = 201 →
      env.decodeSession resp.body = Except.error m →
      (createSession env r).1 = Except.error ("decode session response: " ++ m)) ∧
    (∀ e, cfg.sessionBaggageStr = "" →
      (createSession env (NewReporter cfg.endpoint cfg.apiKey cfg.sessionID
          cfg.sessionDescription (parseLabels cfg.sessionLabelsStr) [])).1 = Except.error e →
      (run env cfg).1 = Except.error ("create session: " ++ e) ∧
      (∀ u q, Event.testcasesCall u q ∉ (run env cfg).2)) := by
  refine ⟨fun m hm => ?_, fun resp hres hne => ?_, fun resp m hres h201 hdec => ?_,
    fun e hbag hcs => ?_⟩
  · simp [createSession, hm]
  · simp [createSession, hres, hne]
  · simp [createSession, hres, h201, hdec]
  · simp only [run]
    split
    · rename_i e' hmatch
      rw [hbag] at hmatch
      exact absurd hmatch (by simp)
    · rename_i sessionBaggage hmatch
      rw [hbag] at hmatch
      have hsb : sessionBaggage = [] := by
        simpa using hmatch.symm
      subst hsb
      split
      · rename_i e' tr heq
        have he' : (Except.error e' : Except String Reporter) = Except.error e := by
          rw [← hcs, heq]
        injection he' with he'
        subst he'
        have htr := createSession_snd_eq heq
        exact ⟨rfl, fun u q => by simp [htr]⟩
      · rename_i reporter2 tr heq
        have hok : (Except.ok reporter2 : Except String Reporter) = Except.error e := by
          rw [← hcs, heq]
        exact absurd hok (by simp)

/-- Witness for claim C6: HTTP 500 on session creation yields the
status-and-body error, and the run aborts with the session-stage label and
no submission call. -/
theorem claim_C6_witness :
    ((createSession env500 reporter0).1
        = Except.error
            ("create session failed: status=" ++ toString (500 : Nat) ++ " body=" ++ "boom")) ∧
    (run env500 cfgC3).1
        = Except.error ("create session: " ++
            ("create session failed: status=" ++ toString (500 : Nat) ++ " body=" ++ "boom")) ∧
    Event.testcasesCall "u" { testcases := [] } ∉ (run env500 cfgC3).2 := by
  refine ⟨?_, ?_, ?_⟩
  · exact (claim_C6_session_failure_modes env500 reporter0 cfgC3).2.1
      { statusCode := 500, body := "boom" } rfl (by decide)
  · exact ((claim_C6_session_failure_modes env500 reporter0 cfgC3).2.2.2 _ rfl rfl).1
  · exact ((claim_C6_session_failure_modes env500 reporter0 cfgC3).2.2.2 _ rfl rfl).2 "u" _

end GreenerReporter
